import Mathlib

/-!
Verification of the movie recommendation system (app.py, build_data.py)
against its natural-language specification.

Python strings are modelled as lists of characters (`Str`) so that every
string operation computes by kernel reduction; Python floats are modelled
as exact rationals; Python runtime values that can appear in a pandas row
are modelled by the inductive type `PyVal`, with `PyVal.nan` a separate
constructor because NaN compares unequal to everything (including itself).
Functions that can raise a Python exception return `Except String α`.
-/

/-- Python strings, modelled as lists of characters. -/
abbrev Str := List Char

/-- Python str.lower() (ASCII case folding). -/
def sLower (s : Str) : Str := s.map Char.toLower

/-- Python str.strip(): remove leading and trailing whitespace. -/
def sStrip (s : Str) : Str :=
  ((s.dropWhile Char.isWhitespace).reverse.dropWhile Char.isWhitespace).reverse

/-- Does `s` start with `pat`? -/
def leadsWith : Str → Str → Bool
  | [], _ => true
  | _ :: _, [] => false
  | p :: ps, c :: cs => p == c && leadsWith ps cs

/-- Python substring containment `pat in s` (the model used for
pandas `.str.contains`; the pandas call treats the pattern as a regular
expression, but the queries relevant to the claims contain no regex
metacharacters, for which regex search coincides with substring search). -/
def containsSub (pat : Str) : Str → Bool
  | [] => leadsWith pat []
  | c :: rest => leadsWith pat (c :: rest) || containsSub pat rest

/-- Python str.split(sep) for a one-character separator:
"12-2009".split('-') = ["12","2009"], "".split('-') = [""]. -/
def sSplitOn (sep : Char) : Str → List Str
  | [] => [[]]
  | c :: rest =>
    if c == sep then [] :: sSplitOn sep rest
    else
      match sSplitOn sep rest with
      | [] => [[c]]
      | h :: t => (c :: h) :: t

/-- Python runtime values occurring in the data rows of this program. -/
inductive PyVal where
  | none
  | nan
  | int (z : ℤ)
  | float (q : ℚ)
  | str (s : Str)
  | list (xs : List PyVal)
  | dict (kvs : List (Str × PyVal))

/-- Python truthiness: None, 0, "", [] and {} are falsy; NaN is truthy. -/
def pyTruthy : PyVal → Bool
  | .none => false
  | .nan => true
  | .int z => z != 0
  | .float q => q != 0
  | .str s => !s.isEmpty
  | .list xs => !xs.isEmpty
  | .dict kvs => !kvs.isEmpty

/-- Python `a or b`: `a` when truthy, otherwise `b`. -/
def pyOr (a b : PyVal) : PyVal := if pyTruthy a then a else b

/-- pandas `pd.isna`: true exactly on None and NaN. -/
def pyIsNa : PyVal → Bool
  | .none => true
  | .nan => true
  | _ => false

/-- pandas `row.get(k)` on a Series: the value at key `k`, None if absent. -/
def rowGet (row : List (Str × PyVal)) (k : Str) : PyVal :=
  match row.find? (fun p => p.1 == k) with
  | some p => p.2
  | Option.none => .none

/-- Python `k in row` for a pandas Series: key membership. -/
def rowHas (row : List (Str × PyVal)) (k : Str) : Bool :=
  (row.find? (fun p => p.1 == k)).isSome

/-- Value of a nonempty all-digit character list. -/
def digitsVal (ds : Str) : Option ℕ :=
  if !ds.isEmpty && ds.all Char.isDigit then
    some (ds.foldl (fun a c => 10 * a + (c.toNat - 48)) 0)
  else Option.none

/-- Python int(string): optional sign and decimal digits, surrounding
whitespace allowed; anything else raises. -/
def intFromStr (s : Str) : Option ℤ :=
  match sStrip s with
  | '-' :: ds => (digitsVal ds).map (fun n => -(n : ℤ))
  | '+' :: ds => (digitsVal ds).map (fun n => (n : ℤ))
  | ds => (digitsVal ds).map (fun n => (n : ℤ))

/-- Python int(x): ints unchanged, floats truncated toward zero, numeric
strings parsed; None, NaN and everything else raise. -/
def pyInt : PyVal → Except String ℤ
  | .int z => .ok z
  | .float q => .ok (if 0 ≤ q then q.floor else q.ceil)
  | .nan => .error "ValueError: cannot convert float NaN to integer"
  | .str s =>
    match intFromStr s with
    | some z => .ok z
    | Option.none => .error "ValueError: invalid literal for int"
  | _ => .error "TypeError: int() argument"

/-- Decimal-string to rational: optional sign, digits, optional fractional
part (scientific notation and the special literals nan/inf are not used by
this program's data and are not modelled). -/
def floatFromStr (s : Str) : Option ℚ :=
  let core : Str → Option ℚ := fun u =>
    match sSplitOn '.' u with
    | [ip] => (digitsVal ip).map (fun n => (n : ℚ))
    | [ip, fp] =>
      if (!ip.isEmpty || !fp.isEmpty) && ip.all Char.isDigit && fp.all Char.isDigit then
        some ((ip.foldl (fun a c => 10 * a + (c.toNat - 48)) 0 : ℚ) +
              (fp.foldl (fun a c => 10 * a + (c.toNat - 48)) 0 : ℚ) / (10 : ℚ) ^ fp.length)
      else Option.none
    | _ => Option.none
  match sStrip s with
  | '-' :: u => (core u).map (fun q => -q)
  | '+' :: u => core u
  | u => core u

/-- Python float(x): numbers become floats (NaN stays NaN — float(nan) does
not raise), numeric strings are parsed; None and containers raise. -/
def pyFloatVal : PyVal → Except String PyVal
  | .int z => .ok (.float (z : ℚ))
  | .float q => .ok (.float q)
  | .nan => .ok .nan
  | .str s =>
    match floatFromStr s with
    | some q => .ok (.float q)
    | Option.none => .error "ValueError: could not convert string to float"
  | _ => .error "TypeError: float() argument"

/-- Round-half-to-even to an integer (Python's rounding mode, idealized
over exact rationals). -/
def halfEvenRound (q : ℚ) : ℤ :=
  let n := q.floor
  let frac := q - (n : ℚ)
  if frac < 1 / 2 then n
  else if 1 / 2 < frac then n + 1
  else if n % 2 = 0 then n else n + 1

/-- Python round(x, 1); round(nan, 1) is nan, not an error. -/
def pyRound1 : PyVal → PyVal
  | .nan => .nan
  | .float q => .float ((halfEvenRound (10 * q) : ℚ) / 10)
  | v => v

/-- Python len(x) for the values that support it. -/
def pyLen : PyVal → Except String ℕ
  | .str s => .ok s.length
  | .list xs => .ok xs.length
  | .dict kvs => .ok kvs.length
  | _ => .error "TypeError: object has no len"

/-- The test `tmdb_id not in (None, "", float('nan'))` from
format_movie_record.  Membership uses equality, and NaN is equal to
nothing (not even to the tuple's own NaN), so a NaN id passes the test. -/
def idUsable : PyVal → Bool
  | .none => false
  | .str [] => false
  | _ => true

/-- Digits of an integer, for building the TMDB link text. -/
def intToStr (z : ℤ) : Str := (toString z).data

/-- The link computation of format_movie_record lines 84-89: the whole
block is wrapped in try/except, so a failing int() yields "". -/
def tmdbLinkOf (tmdb_id : PyVal) : Str :=
  if idUsable tmdb_id then
    match pyInt tmdb_id with
    | .ok z => "https://www.themoviedb.org/movie/".data ++ intToStr z
    | .error _ => []
  else []

/-- overview[:200].rsplit(' ', 1)[0]: first 200 characters with the
trailing partial word removed (the whole prefix when it has no space). -/
def truncAtWord (s : Str) : Str :=
  let t := s.take 200
  match t.reverse.dropWhile (fun c => c != ' ') with
  | [] => t
  | _ :: rest => rest.reverse

/-- Lines 90-91: the shortened overview.  `overview and len(overview) > 200`
evaluates len() on any truthy value, so a NaN overview raises TypeError
here (uncaught); rsplit on a truthy non-string long value also raises. -/
def shortOverview (overview : PyVal) : Except String PyVal :=
  if pyTruthy overview then
    match pyLen overview with
    | .error e => .error e
    | .ok n =>
      if 200 < n then
        match overview with
        | .str s => .ok (.str (truncAtWord s ++ ['…']))
        | _ => .error "AttributeError: rsplit"
      else .ok overview
  else .ok overview

/-- Lines 92-102: the rating, None when float() fails (the try/except
catches the parse failure); a NaN vote_average stays NaN. -/
def ratingOf (row : List (Str × PyVal)) : PyVal :=
  if rowHas row "vote_average".data then
    match pyFloatVal (rowGet row "vote_average".data) with
    | .ok v => pyRound1 v
    | .error _ => .none
  else if rowHas row "vote_average_meta".data then
    match pyFloatVal (rowGet row "vote_average_meta".data) with
    | .ok v => pyRound1 v
    | .error _ => .none
  else .none

/-- Lines 103-106: the year is everything before the first '-' of the
release date, provided the release date is a string that is nonempty
after stripping. -/
def yearOf (release_date : PyVal) : Str :=
  match release_date with
  | .str s => if !(sStrip s).isEmpty then (sSplitOn '-' s).headD [] else []
  | _ => []

/-- The display record returned by format_movie_record. -/
structure MovieRec where
  title : PyVal
  poster_url : PyVal
  tmdb_link : Str
  overview : PyVal
  rating : PyVal
  year : Str
  id : Option ℤ

/-- Lines 81-83: the id used for the link and the id field — the row's
id, replaced by id_meta when the id is missing or NaN and the row has an
id_meta column. -/
def tmdbIdOf (row : List (Str × PyVal)) : PyVal :=
  if pyIsNa (rowGet row "id".data) && rowHas row "id_meta".data then rowGet row "id_meta".data
  else rowGet row "id".data

/-- Line 103: `row.get('release_date') or row.get('release_date_meta') or ""`. -/
def releaseDateOf (row : List (Str × PyVal)) : PyVal :=
  pyOr (rowGet row "release_date".data) (pyOr (rowGet row "release_date_meta".data) (.str []))

/-- app.py lines 77-115, format_movie_record.  The final dict literal
evaluates int(tmdb_id) with no try/except around it, so that conversion
can raise out of the function. -/
def format_movie_record (row : List (Str × PyVal)) : Except String MovieRec :=
  match shortOverview (pyOr (rowGet row "overview".data) (.str [])) with
  | .error e => .error e
  | .ok so =>
    if idUsable (tmdbIdOf row) then
      match pyInt (tmdbIdOf row) with
      | .error e => .error e
      | .ok z =>
        .ok ⟨rowGet row "title".data, pyOr (rowGet row "poster_url".data) (.str []),
             tmdbLinkOf (tmdbIdOf row), so, ratingOf row, yearOf (releaseDateOf row), some z⟩
    else
      .ok ⟨rowGet row "title".data, pyOr (rowGet row "poster_url".data) (.str []),
           tmdbLinkOf (tmdbIdOf row), so, ratingOf row, yearOf (releaseDateOf row),
           Option.none⟩

/-- Modelled from the spec: "year (first 4-digit segment of releaseDate)" —
the first '-'-separated segment consisting of exactly four digits. -/
def specFirstFourDigitSegment (s : Str) : Option Str :=
  (sSplitOn '-' s).find? (fun seg => seg.length == 4 && seg.all Char.isDigit)

/-- Claim C4: format_movie_record raises ValueError on a row whose id is
NaN (with no id_meta column): NaN passes the `not in (None, "", nan)`
test and int(NaN) in the returned dict is not guarded by try/except. -/
theorem c4_nan_id_raises :
    format_movie_record [("title".data, .str "X".data), ("id".data, .nan)] =
      Except.error "ValueError: cannot convert float NaN to integer" := by
  rfl


/-- The value at key "name" of a parsed record dict (`i['name']` /
`i.get("name")`), None when the key is absent modelled as Option.none. -/
def nameVal (kvs : List (Str × PyVal)) : Option PyVal :=
  (kvs.find? (fun p => p.1 == "name".data)).map Prod.snd

/-- The value at key "job" of a parsed record dict. -/
def jobVal (kvs : List (Str × PyVal)) : Option PyVal :=
  (kvs.find? (fun p => p.1 == "job".data)).map Prod.snd

/-- Is this value the Python string "name"?  (list membership test). -/
def isStrName : PyVal → Bool
  | .str s => s == "name".data
  | _ => false

/-- The comprehension of get_names / get_cast (build_data.py lines 23-27):
`[i['name'].replace(" ", "") for i in arr if 'name' in i]`.  For a dict
element `'name' in i` is key membership and the replace call raises
unless the name value is a string; for a string element it is substring
containment (then subscripting the string raises); for a list element it
is list membership (then subscripting raises); for any other element the
membership test itself raises TypeError. -/
def namesFrom : List PyVal → Except String (List Str)
  | [] => .ok []
  | .dict kvs :: rest =>
    (match nameVal kvs with
     | some (.str s) =>
       (match namesFrom rest with
        | .ok r => .ok (s.filter (fun c => c != ' ') :: r)
        | .error e => .error e)
     | some _ => .error "AttributeError: replace"
     | Option.none => namesFrom rest)
  | .str s :: rest =>
    if containsSub "name".data s then .error "TypeError: string indices must be integers"
    else namesFrom rest
  | .list ys :: rest =>
    if ys.any isStrName then .error "TypeError: list indices must be integers"
    else namesFrom rest
  | _ :: _ => .error "TypeError: argument of type int is not iterable"

/-- build_data.py get_names: iterating a non-iterable raises; iterating a
string visits its characters ('name' is never a substring of a single
character, so the result is []); iterating a dict visits its keys. -/
def get_names : PyVal → Except String (List Str)
  | .list xs => namesFrom xs
  | .str _ => .ok []
  | .dict kvs =>
    if kvs.any (fun p => containsSub "name".data p.1) then
      .error "TypeError: string indices must be integers"
    else .ok []
  | _ => .error "TypeError: not iterable"

/-- build_data.py get_cast: like get_names on arr[:5].  Slicing a string
works (and yields at most five characters, hence []); slicing a dict or a
scalar raises. -/
def get_cast : PyVal → Except String (List Str)
  | .list xs => namesFrom (xs.take 5)
  | .str _ => .ok []
  | .dict _ => .error "TypeError: unhashable type slice"
  | _ => .error "TypeError: not subscriptable"

/-- The loop of get_director (build_data.py lines 29-33): `i.get("job")`
raises AttributeError on any non-dict element; on the first element whose
job value equals "Director", `i.get("name").replace(...)` raises unless
the name value is a string (in particular when the name key is absent,
since None has no replace method). -/
def directorFrom : List PyVal → Except String Str
  | [] => .ok []
  | .dict kvs :: rest =>
    (match jobVal kvs with
     | some (.str j) =>
       if j == "Director".data then
         (match nameVal kvs with
          | some (.str s) => .ok (s.filter (fun c => c != ' '))
          | some _ => .error "AttributeError: replace"
          | Option.none => .error "AttributeError: NoneType has no attribute replace")
       else directorFrom rest
     | _ => directorFrom rest)
  | _ :: _ => .error "AttributeError: object has no attribute get"

/-- build_data.py get_director: iterating a string or a dict visits
characters or keys, which lack a .get method, so any nonempty string or
dict raises; a scalar is not iterable. -/
def get_director : PyVal → Except String Str
  | .list xs => directorFrom xs
  | .str [] => .ok []
  | .str (_ :: _) => .error "AttributeError: object has no attribute get"
  | .dict [] => .ok []
  | .dict (_ :: _) => .error "AttributeError: object has no attribute get"
  | _ => .error "TypeError: not iterable"

/-- build_data.py lines 17-21, parse: ast.literal_eval wrapped in a bare
try/except that returns [] on any exception.  literal_eval itself is
Python stdlib, taken as a parameter: `none` models the call raising. -/
def parse (literalEval : Str → Option PyVal) (text : Str) : PyVal :=
  match literalEval text with
  | some v => v
  | Option.none => .list []

/-- Is a "name" value usable by the comprehension (absent, or a string)? -/
def nameOkB : Option PyVal → Bool
  | some (.str _) => true
  | some _ => false
  | Option.none => true

/-- When the record's job value is the string "Director", its name value
must be a string for get_director's replace call to succeed. -/
def directorNameOkB (kvs : List (Str × PyVal)) : Bool :=
  match jobVal kvs with
  | some (.str j) =>
    if j == "Director".data then
      match nameVal kvs with
      | some (.str _) => true
      | _ => false
    else true
  | _ => true

/-- Well-shapedness of one parsed metadata entry. -/
def goodRecord : PyVal → Bool
  | .dict kvs => nameOkB (nameVal kvs) && directorNameOkB kvs
  | _ => false

/-- Well-shapedness of a parsed metadata value: a list of well-shaped
record dicts.  parse returns [] on unparsable text, which satisfies this. -/
def isRecordList : PyVal → Bool
  | .list xs => xs.all goodRecord
  | _ => false

/-- build_data.py line 72: the entries of
pd.Series(movies.index, index=movies["title"]) — value = row number,
label = title. -/
def indexEntries (titles : List Str) : List (Str × ℕ) :=
  titles.enum.map (fun p => (p.2, p.1))

/-- Worker for pandas Series.drop_duplicates, accumulating the values
seen so far. -/
def dropDupValsGo (seen : List ℕ) : List (Str × ℕ) → List (Str × ℕ)
  | [] => []
  | e :: rest =>
    if seen.contains e.2 then dropDupValsGo seen rest
    else e :: dropDupValsGo (e.2 :: seen) rest

/-- pandas Series.drop_duplicates(keep='first'): drops entries whose VALUE
equals the value of an earlier entry; the index labels play no role. -/
def dropDupVals (l : List (Str × ℕ)) : List (Str × ℕ) :=
  dropDupValsGo [] l

/-- build_data.py line 72: the persisted TitleIndex. -/
def indicesBuild (titles : List Str) : List (Str × ℕ) :=
  dropDupVals (indexEntries titles)

/-- pandas label lookup indices[t]: the values at every entry whose label
equals t (a scalar when there is one, a Series when there are several). -/
def seriesLookup (l : List (Str × ℕ)) (t : Str) : List ℕ :=
  (l.filter (fun p => p.1 == t)).map Prod.snd

/-- Claim C2: the TitleIndex does NOT map a duplicated title to a single
row.  The values of the series are the distinct row numbers, so
drop_duplicates (which compares values, not labels) removes nothing, and
looking up a duplicated title returns every occurrence. -/
theorem c2_duplicate_title_two_rows :
    seriesLookup (indicesBuild ["A".data, "A".data]) "A".data = [0, 1] := by
  rfl

/-- A concrete literal_eval fragment: ast.literal_eval("[1]") = [1]. -/
def evalBracketOne : Str → Option PyVal :=
  fun s => if s == "[1]".data then some (.list [.int 1]) else Option.none

/-- Unfolding equation for namesFrom on a record dict. -/
theorem namesFrom_cons_dict (kvs : List (Str × PyVal)) (rest : List PyVal) :
    namesFrom (.dict kvs :: rest) =
      (match nameVal kvs with
       | some (.str s) =>
         (match namesFrom rest with
          | .ok r => .ok (s.filter (fun c => c != ' ') :: r)
          | .error e => .error e)
       | some _ => .error "AttributeError: replace"
       | Option.none => namesFrom rest) := rfl

/-- Unfolding equation for directorFrom on a record dict. -/
theorem directorFrom_cons_dict (kvs : List (Str × PyVal)) (rest : List PyVal) :
    directorFrom (.dict kvs :: rest) =
      (match jobVal kvs with
       | some (.str j) =>
         if j == "Director".data then
           (match nameVal kvs with
            | some (.str s) => .ok (s.filter (fun c => c != ' '))
            | some _ => .error "AttributeError: replace"
            | Option.none => .error "AttributeError: NoneType has no attribute replace")
         else directorFrom rest
       | _ => directorFrom rest) := rfl

/-- On a list of well-shaped records the get_names comprehension
succeeds. -/
theorem namesFrom_ok (xs : List PyVal) (h : ∀ x ∈ xs, goodRecord x = true) :
    (namesFrom xs).isOk = true := by
  induction xs with
  | nil => rfl
  | cons x rest ih =>
    have hx := h x (List.mem_cons_self x rest)
    have ihr := ih (fun y hy => h y (List.mem_cons_of_mem x hy))
    cases x with
    | dict kvs =>
      have hx2 : (nameOkB (nameVal kvs) && directorNameOkB kvs) = true := hx
      rw [Bool.and_eq_true] at hx2
      obtain ⟨hname, _⟩ := hx2
      rw [namesFrom_cons_dict]
      rcases hnv : nameVal kvs with _ | v
      · exact ihr
      · cases v with
        | str s =>
          rcases hn : namesFrom rest with e | r
          · exact Bool.noConfusion (hn ▸ ihr)
          · rfl
        | none => exact Bool.noConfusion (hnv ▸ hname)
        | nan => exact Bool.noConfusion (hnv ▸ hname)
        | int z => exact Bool.noConfusion (hnv ▸ hname)
        | float q => exact Bool.noConfusion (hnv ▸ hname)
        | list ys => exact Bool.noConfusion (hnv ▸ hname)
        | dict kvs2 => exact Bool.noConfusion (hnv ▸ hname)
    | none => exact Bool.noConfusion hx
    | nan => exact Bool.noConfusion hx
    | int z => exact Bool.noConfusion hx
    | float q => exact Bool.noConfusion hx
    | str s => exact Bool.noConfusion hx
    | list ys => exact Bool.noConfusion hx

/-- On a list of well-shaped records the get_director loop succeeds. -/
theorem directorFrom_ok (xs : List PyVal) (h : ∀ x ∈ xs, goodRecord x = true) :
    (directorFrom xs).isOk = true := by
  induction xs with
  | nil => rfl
  | cons x rest ih =>
    have hx := h x (List.mem_cons_self x rest)
    have ihr := ih (fun y hy => h y (List.mem_cons_of_mem x hy))
    cases x with
    | dict kvs =>
      have hx2 : (nameOkB (nameVal kvs) && directorNameOkB kvs) = true := hx
      rw [Bool.and_eq_true] at hx2
      obtain ⟨_, hdir⟩ := hx2
      unfold directorNameOkB at hdir
      rcases hjv : jobVal kvs with _ | v
      · have hg : directorFrom (.dict kvs :: rest) = directorFrom rest := by
          rw [directorFrom_cons_dict, hjv]
        rw [hg]; exact ihr
      · rw [hjv] at hdir
        cases v with
        | str j =>
          have hdir2 : (if (j == "Director".data) = true then
              (match nameVal kvs with
               | some (.str _) => true
               | _ => false)
            else true) = true := hdir
          have hg : directorFrom (.dict kvs :: rest) =
              (if (j == "Director".data) = true then
                (match nameVal kvs with
                 | some (.str s) => Except.ok (s.filter (fun c => c != ' '))
                 | some _ => Except.error "AttributeError: replace"
                 | Option.none => Except.error "AttributeError: NoneType has no attribute replace")
              else directorFrom rest) := by
            rw [directorFrom_cons_dict, hjv]
          rw [hg]
          by_cases hj : (j == "Director".data) = true
          · rw [if_pos hj]
            rw [if_pos hj] at hdir2
            rcases hnv : nameVal kvs with _ | w
            · rw [hnv] at hdir2
              exact Bool.noConfusion hdir2
            · rw [hnv] at hdir2
              cases w with
              | str s => rfl
              | none => exact Bool.noConfusion hdir2
              | nan => exact Bool.noConfusion hdir2
              | int z => exact Bool.noConfusion hdir2
              | float q => exact Bool.noConfusion hdir2
              | list ys => exact Bool.noConfusion hdir2
              | dict kvs2 => exact Bool.noConfusion hdir2
          · rw [if_neg hj]
            exact ihr
        | none =>
          have hg : directorFrom (.dict kvs :: rest) = directorFrom rest := by
            rw [directorFrom_cons_dict, hjv]
          rw [hg]; exact ihr
        | nan =>
          have hg : directorFrom (.dict kvs :: rest) = directorFrom rest := by
            rw [directorFrom_cons_dict, hjv]
          rw [hg]; exact ihr
        | int z =>
          have hg : directorFrom (.dict kvs :: rest) = directorFrom rest := by
            rw [directorFrom_cons_dict, hjv]
          rw [hg]; exact ihr
        | float q =>
          have hg : directorFrom (.dict kvs :: rest) = directorFrom rest := by
            rw [directorFrom_cons_dict, hjv]
          rw [hg]; exact ihr
        | list ys =>
          have hg : directorFrom (.dict kvs :: rest) = directorFrom rest := by
            rw [directorFrom_cons_dict, hjv]
          rw [hg]; exact ihr
        | dict kvs2 =>
          have hg : directorFrom (.dict kvs :: rest) = directorFrom rest := by
            rw [directorFrom_cons_dict, hjv]
          rw [hg]; exact ihr
    | none => exact Bool.noConfusion hx
    | nan => exact Bool.noConfusion hx
    | int z => exact Bool.noConfusion hx
    | float q => exact Bool.noConfusion hx
    | str s => exact Bool.noConfusion hx
    | list ys => exact Bool.noConfusion hx

/-- Claim C9 (counterexample): the text "[1]" IS handled by literal_eval
(it parses to the list [1]), but its element is not a record, and
get_names then raises TypeError instead of degrading to []. -/
theorem c9_parseable_nonrecord_raises :
    get_names (parse evalBracketOne "[1]".data) =
      Except.error "TypeError: argument of type int is not iterable" := by
  rfl

/-- Claim C9 as amended: whenever the parsed value is a list of
well-shaped records — which includes every text literal_eval cannot
handle, since parse then returns [] — get_names, get_cast and
get_director all return without raising. -/
theorem c9_wellformed_extraction (ev : Str → Option PyVal) (t : Str)
    (h : isRecordList (parse ev t) = true) :
    (get_names (parse ev t)).isOk = true ∧
    (get_cast (parse ev t)).isOk = true ∧
    (get_director (parse ev t)).isOk = true := by
  rcases hp : parse ev t with _ | _ | z | q | s | xs | kvs <;> rw [hp] at h
  · exact Bool.noConfusion h
  · exact Bool.noConfusion h
  · exact Bool.noConfusion h
  · exact Bool.noConfusion h
  · exact Bool.noConfusion h
  · have h2 : xs.all goodRecord = true := h
    have hall : ∀ x ∈ xs, goodRecord x = true := List.all_eq_true.mp h2
    exact ⟨namesFrom_ok xs hall, namesFrom_ok (xs.take 5)
      (fun x hx => hall x (List.take_subset 5 xs hx)), directorFrom_ok xs hall⟩
  · exact Bool.noConfusion h

/-- Claim C9 witness: a text literal_eval rejects degrades to [], and all
three extractors succeed on it. -/
theorem c9_wellformed_extraction_witness :
    isRecordList (parse (fun _ => Option.none) "x".data) = true ∧
    ((get_names (parse (fun _ => Option.none) "x".data)).isOk = true ∧
     (get_cast (parse (fun _ => Option.none) "x".data)).isOk = true ∧
     (get_director (parse (fun _ => Option.none) "x".data)).isOk = true) :=
  ⟨rfl, c9_wellformed_extraction (fun _ => Option.none) "x".data rfl⟩

/-- app.py line 45: `{t.lower(): t for t in all_titles}` — the pairs of
the comprehension in order; a dict comprehension lets a later binding
overwrite an earlier one. -/
def lowerPairs (titles : List Str) : List (Str × Str) :=
  titles.map (fun t => (sLower t, t))

/-- Lookup in a comprehension-built dict: the LAST binding for a key
wins. -/
def dictGetLast (l : List (Str × Str)) (k : Str) : Option Str :=
  (l.reverse.find? (fun p => p.1 == k)).map Prod.snd

/-- app.py lines 54-75, find_best_title.  The same title list serves as
the labels of the TitleIndex (indices.pkl) and as all_titles
(movies.pkl): by build_data.py lines 71-89 both artifacts carry the same
title column.  difflib.get_close_matches is Python stdlib and is taken
as a parameter gcm; theorems assume only its documented contract, that
every returned match is drawn from the candidate list.  Returns the pair
(matched title or None, match kind or None). -/
def find_best_title (titles : List Str) (gcm : Str → List Str → List Str)
    (query : Str) : Option Str × Option Str :=
  if query.isEmpty then (Option.none, Option.none)
  else if titles.contains (sStrip query) then (some (sStrip query), some "exact".data)
  else
    match dictGetLast (lowerPairs titles) (sLower (sStrip query)) with
    | some t => (some t, some "case-insensitive".data)
    | Option.none =>
      match gcm (sStrip query) titles with
      | m :: _ => (some m, some "fuzzy".data)
      | [] =>
        match gcm (sLower (sStrip query)) (titles.map sLower) with
        | m :: _ => (dictGetLast (lowerPairs titles) m, some "fuzzy-lower".data)
        | [] => (Option.none, Option.none)

/-- Any title delivered by the lowercase dict is one of the stored
titles. -/
theorem dictGetLast_mem (titles : List Str) (k t : Str)
    (h : dictGetLast (lowerPairs titles) k = some t) : t ∈ titles := by
  unfold dictGetLast at h
  rcases hf : (lowerPairs titles).reverse.find? (fun p => p.1 == k) with _ | p
  · rw [hf] at h
    exact Option.noConfusion h
  · rw [hf] at h
    injection h with h1
    have hp : p ∈ (lowerPairs titles).reverse := List.mem_of_find?_eq_some hf
    rw [List.mem_reverse] at hp
    unfold lowerPairs at hp
    rw [List.mem_map] at hp
    obtain ⟨x, hx, hxe⟩ := hp
    rw [← h1, ← hxe]
    exact hx

/-- Claim C7: when the stripped query is itself a stored title (and, as
the data model guarantees of every title, nonempty), the resolver
answers at the exact stage: it returns the stripped query with kind
'exact', regardless of what the later stages would produce. -/
theorem c7_exact_stage_first (titles : List Str) (gcm : Str → List Str → List Str)
    (query : Str) (h1 : sStrip query ∈ titles) (h2 : sStrip query ≠ []) :
    find_best_title titles gcm query = (some (sStrip query), some "exact".data) := by
  have hq : ¬(query.isEmpty = true) := by
    cases query with
    | nil => exact absurd rfl h2
    | cons c cs => exact fun hh => Bool.noConfusion hh
  have hc : titles.contains (sStrip query) = true := List.elem_iff.mpr h1
  unfold find_best_title
  rw [if_neg hq, if_pos hc]

/-- Claim C7 witness: a padded exact title resolves at the exact stage. -/
theorem c7_exact_stage_first_witness :
    sStrip " The Dark Knight ".data ∈ ["The Dark Knight".data] ∧
    sStrip " The Dark Knight ".data ≠ [] ∧
    find_best_title ["The Dark Knight".data] (fun _ _ => []) " The Dark Knight ".data =
      (some (sStrip " The Dark Knight ".data), some "exact".data) :=
  ⟨by decide, by decide,
    c7_exact_stage_first ["The Dark Knight".data] (fun _ _ => []) " The Dark Knight ".data
      (by decide) (by decide)⟩

/-- Claim C10: whatever stage fires, a non-None resolved title is always
an element of the stored title list (hence a label of the TitleIndex),
provided only that the fuzzy matcher draws its candidates from the list
it is given — difflib's documented behaviour. -/
theorem c10_resolver_in_titles (titles : List Str) (gcm : Str → List Str → List Str)
    (q t : Str) (k : Option Str)
    (hg : ∀ s l, ∀ m ∈ gcm s l, m ∈ l)
    (h : find_best_title titles gcm q = (some t, k)) : t ∈ titles := by
  unfold find_best_title at h
  by_cases he : q.isEmpty = true
  · rw [if_pos he] at h
    simp only [Prod.mk.injEq] at h
    exact Option.noConfusion h.1
  · rw [if_neg he] at h
    by_cases hc : titles.contains (sStrip q) = true
    · rw [if_pos hc] at h
      simp only [Prod.mk.injEq] at h
      obtain ⟨h1, _⟩ := h
      injection h1 with h1
      rw [← h1]
      exact List.elem_iff.mp hc
    · rw [if_neg hc] at h
      rcases hd : dictGetLast (lowerPairs titles) (sLower (sStrip q)) with _ | t2
      · rw [hd] at h
        rcases hm : gcm (sStrip q) titles with _ | ⟨m, ms⟩
        · rw [hm] at h
          rcases hm2 : gcm (sLower (sStrip q)) (titles.map sLower) with _ | ⟨m2, ms2⟩
          · rw [hm2] at h
            simp only [Prod.mk.injEq] at h
            exact Option.noConfusion h.1
          · rw [hm2] at h
            simp only [Prod.mk.injEq] at h
            exact dictGetLast_mem titles m2 t h.1
        · rw [hm] at h
          simp only [Prod.mk.injEq] at h
          obtain ⟨h1, _⟩ := h
          injection h1 with h1
          rw [← h1]
          exact hg (sStrip q) titles m (hm ▸ List.mem_cons_self m ms)
      · rw [hd] at h
        simp only [Prod.mk.injEq] at h
        obtain ⟨h1, _⟩ := h
        injection h1 with h1
        rw [← h1]
        exact dictGetLast_mem titles (sLower (sStrip q)) t2 hd

/-- Claim C10 witness: a resolved title is in the stored list. -/
theorem c10_resolver_in_titles_witness :
    find_best_title ["A".data] (fun _ _ => []) "A".data =
      (some "A".data, some "exact".data) ∧
    "A".data ∈ ["A".data] :=
  ⟨rfl, c10_resolver_in_titles ["A".data] (fun _ _ => []) "A".data "A".data
    (some "exact".data) (fun _ _ m hm => absurd hm (List.not_mem_nil m)) rfl⟩

instance : Inhabited PyVal := ⟨.none⟩

/-- The comparison realised by `sorted(scores, key=lambda x: x[1],
reverse=True)` on (index, score) pairs: descending score; Python's sort
is stable, so equal scores keep their original (ascending index) order.
Sorting by this relation — a linear order on pairs with distinct
indices — reproduces the stable descending sort exactly. -/
def scoreRel (a b : ℕ × ℚ) : Prop := b.2 < a.2 ∨ (a.2 = b.2 ∧ a.1 ≤ b.1)

instance : DecidableRel scoreRel := fun a b =>
  inferInstanceAs (Decidable (b.2 < a.2 ∨ (a.2 = b.2 ∧ a.1 ≤ b.1)))

/-- One row of movies_full (app.py line 41): title, poster_url and id
from the saved movie table, overview / vote_average / release_date /
id_meta merged in from the metadata CSV (NaN where the left join found
no metadata row). -/
structure MFRow where
  title : Str
  poster_url : PyVal
  id : PyVal
  overview : PyVal
  vote_average : PyVal
  release_date : PyVal
  id_meta : PyVal
deriving Inhabited

/-- A movies_full row as the pandas Series seen by format_movie_record. -/
def mfRowDict (j : MFRow) : List (Str × PyVal) :=
  [("title".data, .str j.title), ("poster_url".data, j.poster_url), ("id".data, j.id),
   ("overview".data, j.overview), ("vote_average".data, j.vote_average),
   ("release_date".data, j.release_date), ("id_meta".data, j.id_meta)]

/-- The rows of the TitleIndex carrying a given title (pandas label
lookup into the index built by build_data.py line 72, where
drop_duplicates does not in fact deduplicate labels). -/
def titleRows (titles : List Str) (t : Str) : List ℕ :=
  (titles.enum.filter (fun p => p.2 == t)).map Prod.fst

/-- app.py lines 117-128, title_recommend.  The title column of
movies_full doubles as the index labels (aligned artifacts).  When the
title carries a unique row, `idx = indices[best_title]` is that row and
the body runs: enumerate the idx-th row of the similarity matrix, sort
stably by descending score, drop the FIRST element of the sorted list
(the comment says "skip itself"), take topn, and format the rows at the
surviving indices.  When the title carries several rows the lookup
returns a Series and the sort comparison raises (modelled as none). -/
def title_recommend (S : List (List ℚ)) (moviesFull : List MFRow) (best : Str)
    (topn : ℕ) : Option (List (Except String MovieRec)) :=
  let titles := moviesFull.map MFRow.title
  if titles.contains best then
    match titleRows titles best with
    | [i] =>
      let scores := (S.getD i []).enum
      let sorted := List.insertionSort scoreRel scores
      let sliced := (sorted.drop 1).take topn
      let rows := sliced.map (fun p => moviesFull.getD p.1 default)
      some (rows.map (fun j => format_movie_record (mfRowDict j)))
    | _ => Option.none
  else some []

/-- Two items with identical similarity rows (e.g. duplicated source
rows): each self-similarity ties the matrix maximum. -/
def simTwin : List (List ℚ) := [[1, 1], [1, 1]]

/-- Movie table rows for the tie counterexample. -/
def mfA : MFRow := ⟨"A".data, .str "p".data, .int 1, .str [], .none, .str [], .none⟩

/-- Second movie of the tie counterexample. -/
def mfB : MFRow := ⟨"B".data, .str "p".data, .int 2, .str [], .none, .str [], .none⟩

/-- The display record of movie B. -/
def recB : MovieRec :=
  ⟨.str "B".data, .str "p".data, "https://www.themoviedb.org/movie/2".data,
   .str [], .none, [], some 2⟩

/-- Claim C1: recommending for "B" when row 0 ties row 1's self-similarity
returns movie "B" itself.  The stable descending sort of [(0,1),(1,1)]
keeps (0,1) first, and `scores[1: topn+1]` drops that first element — the
OTHER movie — instead of the queried one, so the queried title appears in
the output. -/
theorem c1_tie_returns_queried_movie :
    title_recommend simTwin [mfA, mfB] "B".data 1 = some [Except.ok recB] := by
  rfl

/-- One row of the metadata CSV as normalized by app.py lines 27-29:
title stripped, the raw text fields, the popularity ranking field
(present in the TMDB data, so the `'popularity' in columns` test
succeeds and the sort always runs), and the id / vote_average /
release_date values carried into the merge. -/
structure MetaRow where
  genres : Str
  keywords : Str
  overview : Str
  title : Str
  popularity : ℚ
  id : PyVal
  vote_average : PyVal
  release_date : PyVal

/-- The mask of app.py lines 136-141: case-insensitive substring match of
the (already lowercased and stripped) query against genres, keywords,
overview, or the precomputed lowercased title. -/
def metaMask (q : Str) (r : MetaRow) : Bool :=
  containsSub q (sLower r.genres) || containsSub q (sLower r.keywords) ||
  containsSub q (sLower r.overview) || containsSub q (sLower r.title)

/-- The ordering of sort_values(by='popularity', ascending=False).
pandas' default quicksort gives no stability guarantee, so the model
fixes one descending order; the claims proved do not depend on the order
of ties. -/
def popRel (a b : MetaRow) : Prop := b.popularity ≤ a.popularity

instance : DecidableRel popRel := fun a b =>
  inferInstanceAs (Decidable (b.popularity ≤ a.popularity))

/-- app.py line 142 (with lines 135-141): the metadata rows matching the
query. -/
def kwMatches (meta : List MetaRow) (q : Str) : List MetaRow :=
  meta.filter (metaMask (sStrip (sLower q)))

/-- app.py lines 145-147: matches ranked by descending popularity,
truncated to topn. -/
def kwTop (meta : List MetaRow) (q : Str) (topn : ℕ) : List MetaRow :=
  (List.insertionSort popRel (kwMatches meta q)).take topn

/-- One matched row after the merge of app.py lines 150-155: left
(metadata) columns that clash get the _meta suffix, right (movies_full)
columns keep their names; when the left join finds no partner the right
columns are NaN. -/
def mergedRowDict (m : MetaRow) (mf : Option MFRow) : List (Str × PyVal) :=
  [("title".data, .str m.title),
   ("genres".data, .str m.genres), ("keywords".data, .str m.keywords),
   ("overview_meta".data, .str m.overview), ("popularity".data, .float m.popularity),
   ("id_meta".data, m.id), ("vote_average_meta".data, m.vote_average),
   ("release_date_meta".data, m.release_date),
   ("poster_url".data, match mf with | some j => j.poster_url | Option.none => .nan),
   ("id".data, match mf with | some j => j.id | Option.none => .nan),
   ("overview".data, match mf with | some j => j.overview | Option.none => .nan),
   ("vote_average".data, match mf with | some j => j.vote_average | Option.none => .nan),
   ("release_date".data, match mf with | some j => j.release_date | Option.none => .nan)]

/-- The left join of one matched row against movies_full, keyed by
title: one NaN-padded row when there is no partner, one row per partner
otherwise (a duplicated title in movies_full duplicates the match). -/
def kwJoinRows (moviesFull : List MFRow) (m : MetaRow) : List (List (Str × PyVal)) :=
  match moviesFull.filter (fun j => j.title == m.title) with
  | [] => [mergedRowDict m Option.none]
  | js => js.map (fun j => mergedRowDict m (some j))

/-- app.py lines 131-159, keyword_search.  Note that `if not q` is
tested BEFORE the strip on line 135, so only the genuinely empty string
is rejected; a whitespace-only query strips to the empty pattern, which
is a substring of everything. -/
def keyword_search (meta : List MetaRow) (moviesFull : List MFRow) (q : Str)
    (topn : ℕ) : List (Except String MovieRec) :=
  if q.isEmpty then []
  else if (kwMatches meta q).isEmpty then []
  else (((kwTop meta q topn).map (kwJoinRows moviesFull)).flatten).map format_movie_record

/-- A metadata row whose genre text matches the queries used below. -/
def metaW : MetaRow :=
  ⟨"Action".data, "kw".data, "ov".data, "A".data, 1, .int 7, .none,
   .str "2009-01-01".data⟩

/-- A movies_full row titled "A". -/
def mfW : MFRow := ⟨"A".data, .str "p".data, .int 7, .str "ov".data, .none, .str [], .int 7⟩

/-- Claim C3 (counterexample): a whitespace-only query is truthy, escapes
the emptiness guard, strips to the empty pattern and matches every row —
the result is not the empty list. -/
theorem c3_whitespace_query_not_empty :
    keyword_search [metaW] [mfW] " ".data 5 ≠ [] := by
  intro h
  have h2 : (keyword_search [metaW] [mfW] " ".data 5).length = 1 := rfl
  rw [h] at h2
  exact absurd h2 (by decide)

/-- Claim C3 as amended: for the empty-string query (the only query the
`if not q` guard rejects) keyword_search returns the empty list, for
every topN. -/
theorem c3_empty_query_empty (meta : List MetaRow) (moviesFull : List MFRow)
    (topn : ℕ) : keyword_search meta moviesFull [] topn = [] := rfl

/-- A metadata row matching the query "x", titled "A". -/
def metaX : MetaRow := ⟨"x".data, [], [], "A".data, 1, .int 7, .none, .str []⟩

/-- Claim C5 (counterexample): with "A" occurring twice in movies_full,
head(topn) keeps one match but the left join then emits one record per
occurrence: two records for topn = 1. -/
theorem c5_left_join_exceeds_topn :
    ¬((keyword_search [metaX] [mfW, mfW] "x".data 1).length ≤ 1) := by
  have h2 : (keyword_search [metaX] [mfW, mfW] "x".data 1).length = 2 := rfl
  omega

/-- Sum of a list of at-most-one values is at most the length. -/
theorem sum_map_le_length {α : Type} (l : List α) (f : α → ℕ)
    (h : ∀ x ∈ l, f x ≤ 1) : (l.map f).sum ≤ l.length := by
  induction l with
  | nil => simp
  | cons x xs ih =>
    simp only [List.map_cons, List.sum_cons, List.length_cons]
    have h1 := h x (List.mem_cons_self x xs)
    have h2 := ih (fun y hy => h y (List.mem_cons_of_mem x hy))
    omega

/-- Claim C5 as amended: when every MATCHED title occurs at most once in
the poster table (so the left join cannot duplicate a match),
keyword_search returns at most topN records; titles of rows the query
does not match may be duplicated freely. -/
theorem c5_at_most_topn (meta : List MetaRow) (moviesFull : List MFRow) (q : Str)
    (topn : ℕ)
    (h : ∀ m ∈ kwMatches meta q,
      (moviesFull.filter (fun j => j.title == m.title)).length ≤ 1) :
    (keyword_search meta moviesFull q topn).length ≤ topn := by
  unfold keyword_search
  by_cases he : q.isEmpty = true
  · rw [if_pos he]; exact Nat.zero_le topn
  · rw [if_neg he]
    by_cases hm : (kwMatches meta q).isEmpty = true
    · rw [if_pos hm]; exact Nat.zero_le topn
    · rw [if_neg hm]
      rw [List.length_map, List.length_flatten, List.map_map]
      have hmem : ∀ m ∈ kwTop meta q topn, (List.length ∘ kwJoinRows moviesFull) m ≤ 1 := by
        intro m hmTop
        have h1 : m ∈ List.insertionSort popRel (kwMatches meta q) :=
          List.take_subset topn _ hmTop
        have h2 : m ∈ kwMatches meta q := (List.mem_insertionSort popRel).mp h1
        have h4 := h m h2
        show (kwJoinRows moviesFull m).length ≤ 1
        unfold kwJoinRows
        rcases hf : moviesFull.filter (fun j => j.title == m.title) with _ | ⟨j, js⟩
        · rw [hf]
          exact Nat.le_refl 1
        · rw [hf] at h4
          rw [hf]
          show ((j :: js).map (fun jj => mergedRowDict m (some jj))).length ≤ 1
          rw [List.length_map]
          exact h4
      have hsum := sum_map_le_length (kwTop meta q topn)
        (List.length ∘ kwJoinRows moviesFull) hmem
      have hlen : (kwTop meta q topn).length ≤ topn := by
        unfold kwTop
        apply List.length_take_le
      omega

/-- Claim C5 witness: with the matched title unique in the poster table
the result is within topN. -/
theorem c5_at_most_topn_witness :
    (∀ m ∈ kwMatches [metaX] "x".data,
      (([mfW] : List MFRow).filter (fun j => j.title == m.title)).length ≤ 1) ∧
    (keyword_search [metaX] [mfW] "x".data 1).length ≤ 1 :=
  ⟨by decide, c5_at_most_topn [metaX] [mfW] "x".data 1 (by decide)⟩

/-- build_data.py line 68: the fused similarity matrix
`SIM = 0.4 * sim_overview + 0.6 * sim_meta`, over exact rationals (the
float weights 0.4 and 0.6 idealized as 2/5 and 3/5). -/
def SIM (A B : ℕ → ℕ → ℚ) (i j : ℕ) : ℚ := 0.4 * A i j + 0.6 * B i j

/-- Claim C6: when the two cosine-similarity matrices have entries in
[0, 1] with unit diagonal — the spec's characterization of the sklearn
collaborator (section 4.2: "each entry in [0,1], self-similarity = 1") —
every diagonal entry of the fused matrix bounds every entry of the
matrix, i.e. S[i][i] equals the maximum value attained anywhere. -/
theorem c6_self_similarity_max (n : ℕ) (A B : ℕ → ℕ → ℚ)
    (hA1 : ∀ i, i < n → A i i = 1) (hB1 : ∀ i, i < n → B i i = 1)
    (hA : ∀ i, i < n → ∀ j, j < n → A i j ≤ 1)
    (hB : ∀ i, i < n → ∀ j, j < n → B i j ≤ 1)
    (i : ℕ) (hi : i < n) :
    ∀ k, k < n → ∀ l, l < n → SIM A B k l ≤ SIM A B i i := by
  intro k hk l hl
  have h1 := hA k hk l hl
  have h2 := hB k hk l hl
  have h3 := hA1 i hi
  have h4 := hB1 i hi
  unfold SIM
  rw [h3, h4]
  linarith

/-- The all-ones cosine matrix of a single item. -/
def oneMat : ℕ → ℕ → ℚ := fun _ _ => 1

/-- Claim C6 witness: the fused matrix of a one-item space attains its
maximum on the diagonal. -/
theorem c6_self_similarity_max_witness :
    (∀ i, i < 1 → oneMat i i = 1) ∧
    (∀ k, k < 1 → ∀ l, l < 1 → SIM oneMat oneMat k l ≤ SIM oneMat oneMat 0 0) :=
  ⟨fun _ _ => rfl,
    c6_self_similarity_max 1 oneMat oneMat (fun _ _ => rfl) (fun _ _ => rfl)
      (fun _ _ _ _ => le_refl 1) (fun _ _ _ _ => le_refl 1) 0 Nat.one_pos⟩

/-- Splitting never yields the empty list of segments. -/
theorem sSplitOn_ne_nil (sep : Char) (s : Str) : sSplitOn sep s ≠ [] := by
  cases s with
  | nil => exact fun h => List.noConfusion h
  | cons c rest =>
    unfold sSplitOn
    by_cases hc : (c == sep) = true
    · rw [if_pos hc]
      exact List.cons_ne_nil _ _
    · rw [if_neg hc]
      rcases hr : sSplitOn sep rest with _ | ⟨h0, t⟩
      · exact List.cons_ne_nil _ _
      · exact List.cons_ne_nil _ _

/-- The year field of a successfully built record is the year computed
from the release-date chain of the row. -/
theorem format_year (row : List (Str × PyVal)) (rec : MovieRec)
    (hok : format_movie_record row = Except.ok rec) :
    rec.year = yearOf (releaseDateOf row) := by
  unfold format_movie_record at hok
  split at hok
  · exact Except.noConfusion hok
  · split at hok
    · split at hok
      · exact Except.noConfusion hok
      · injection hok with hok
        rw [← hok]
    · injection hok with hok
      rw [← hok]

/-- A row whose release date has a non-4-digit leading segment. -/
def rowDate : List (Str × PyVal) := [("release_date".data, .str "12-2009".data)]

/-- The record format_movie_record produces for rowDate. -/
def recDate : MovieRec := ⟨.none, .str [], [], .str [], .none, "12".data, Option.none⟩

/-- Claim C8 (counterexample): for releaseDate "12-2009" the record's
year is "12" — everything before the first '-' — while the first 4-digit
segment of the string is "2009". -/
theorem c8_year_not_first_four_digit_segment :
    format_movie_record rowDate = Except.ok recDate ∧
    specFirstFourDigitSegment "12-2009".data = some "2009".data ∧
    recDate.year ≠ "2009".data :=
  ⟨rfl, rfl, by decide⟩

/-- Claim C8 as amended: the year is the segment of releaseDate before
the first '-'; whenever that leading segment consists of exactly four
digits (as in ISO YYYY-MM-DD dates) it coincides with the first 4-digit
segment of the string. -/
theorem c8_year_leading_segment (row : List (Str × PyVal)) (rd : Str) (rec : MovieRec)
    (hrd : rowGet row "release_date".data = .str rd)
    (hne : (sStrip rd).isEmpty = false)
    (hlen : ((sSplitOn '-' rd).headD []).length = 4)
    (hdig : ((sSplitOn '-' rd).headD []).all Char.isDigit = true)
    (hok : format_movie_record row = Except.ok rec) :
    rec.year = (sSplitOn '-' rd).headD [] ∧
    specFirstFourDigitSegment rd = some ((sSplitOn '-' rd).headD []) := by
  have hrdne : rd.isEmpty = false := by
    cases rd with
    | nil => exact Bool.noConfusion hne
    | cons c cs => rfl
  have htr : pyTruthy (.str rd) = true := by
    show (!rd.isEmpty) = true
    rw [hrdne]
    rfl
  have hrel : releaseDateOf row = .str rd := by
    unfold releaseDateOf
    rw [hrd]
    unfold pyOr
    rw [if_pos htr]
  have hy := format_year row rec hok
  rcases hsp : sSplitOn '-' rd with _ | ⟨seg, segs⟩
  · exact absurd hsp (sSplitOn_ne_nil '-' rd)
  · rw [hsp] at hlen hdig
    have hlen2 : seg.length = 4 := hlen
    have hdig2 : seg.all Char.isDigit = true := hdig
    constructor
    · rw [hy, hrel]
      show (if (!(sStrip rd).isEmpty) = true then (sSplitOn '-' rd).headD [] else []) =
        (seg :: segs).headD []
      rw [hne, hsp]
      rfl
    · unfold specFirstFourDigitSegment
      rw [hsp]
      have hp : (seg.length == 4 && seg.all Char.isDigit) = true := by
        rw [Bool.and_eq_true]
        exact ⟨beq_iff_eq.mpr hlen2, hdig2⟩
      show List.find? (fun u => u.length == 4 && u.all Char.isDigit) (seg :: segs) = some seg
      exact List.find?_cons_of_pos segs hp

/-- Claim C8 witness: an ISO date "2009-12-10" yields year "2009", which
is also the first 4-digit segment. -/
theorem c8_year_leading_segment_witness :
    format_movie_record [("release_date".data, .str "2009-12-10".data)] =
      Except.ok ⟨.none, .str [], [], .str [], .none, "2009".data, Option.none⟩ ∧
    (⟨.none, .str [], [], .str [], .none, "2009".data, Option.none⟩ : MovieRec).year =
      (sSplitOn '-' "2009-12-10".data).headD [] ∧
    specFirstFourDigitSegment "2009-12-10".data =
      some ((sSplitOn '-' "2009-12-10".data).headD []) :=
  ⟨rfl,
    (c8_year_leading_segment [("release_date".data, .str "2009-12-10".data)]
      "2009-12-10".data ⟨.none, .str [], [], .str [], .none, "2009".data, Option.none⟩
      rfl rfl (by decide) (by decide) rfl).1,
    (c8_year_leading_segment [("release_date".data, .str "2009-12-10".data)]
      "2009-12-10".data ⟨.none, .str [], [], .str [], .none, "2009".data, Option.none⟩
      rfl rfl (by decide) (by decide) rfl).2⟩
